import Mathlib

/-!
Verification of the Command Fusion & Process Supervision Engine
(`main9.py`, with the presentation-side matcher of
`hrc_gui_dashboard3.py`), shallowly embedded in Lean 4.

Times are modelled as integers (`Int`): the code reads `time.time()`
(a positive real); all the matcher does with times is subtract,
take absolute values, and compare, so an integer clock is faithful.
Python truthiness on the stored values is modelled explicitly:
a command slot (`Option String`) is truthy when it is `some s` with
`s ≠ ""`; a stored time (`Int`, initialised to `0`) is truthy when it
is nonzero.
-/

namespace HRC

/-- The statistics dictionary of `CommandMatcher.__init__`
(`main9.py` lines 55-60): exactly four counters. -/
structure Stats where
  voice_commands : Nat
  ocr_commands : Nat
  matched_commands : Nat
  executed_commands : Nat
deriving DecidableEq, Repr

/-- The mutable state of `CommandMatcher` (`main9.py` lines 43-60):
per-source slot and timestamp, the timeout window, and the stats.
The `threading.Lock` is not part of the data state; the lock
discipline is modelled separately by an event trace. -/
structure MatcherState where
  voice_command : Option String
  voice_time : Int
  ocr_command : Option String
  ocr_time : Int
  timeout : Int
  stats : Stats
deriving DecidableEq, Repr

/-- `CommandMatcher.__init__(timeout)`: empty slots, zero times,
all counters zero. -/
def initMatcher (timeout : Int) : MatcherState :=
  { voice_command := none
    voice_time := 0
    ocr_command := none
    ocr_time := 0
    timeout := timeout
    stats := ⟨0, 0, 0, 0⟩ }

/-- `CommandMatcher.valid_commands` (`main9.py` line 52). -/
def validCommands : List String :=
  ["one", "two", "three", "four", "five", "home"]

/-- The correction table `mappings` of `_clean_command`
(`main9.py` lines 96-103). -/
def mappings : List (String × String) :=
  [("1", "one"), ("i", "one"), ("l", "one"),
   ("2", "two"), ("to", "two"), ("too", "two"),
   ("3", "three"), ("tree", "three"),
   ("4", "four"), ("for", "four"),
   ("5", "five"), ("s", "five"),
   ("0", "home"), ("zero", "home"), ("o", "home")]

/-- `mappings.get(cleaned, ...)`: dictionary lookup. -/
def lookupMapping (key : String) : Option String :=
  (mappings.find? (fun p => p.1 = key)).map (fun p => p.2)

/-- ASCII model of Python `str.lower` on a single character. -/
def lowerChar (c : Char) : Char :=
  if 65 ≤ c.toNat ∧ c.toNat ≤ 90 then Char.ofNat (c.toNat + 32) else c

/-- Python `str.lower` (ASCII fragment, which covers every token the
correction table and the canonical set can recognise). -/
def pyLower (s : String) : String := ⟨s.data.map lowerChar⟩

/-- The whitespace characters stripped by Python `str.strip()`
(ASCII fragment): space, tab, newline, carriage return, vertical tab,
form feed. -/
def isPySpace (c : Char) : Bool := c.toNat ∈ [32, 9, 10, 13, 11, 12]

/-- Python `str.strip()`: drop leading and trailing whitespace. -/
def pyStrip (s : String) : String :=
  ⟨((s.data.dropWhile isPySpace).reverse.dropWhile isPySpace).reverse⟩

/-- `CommandMatcher._clean_command` (`main9.py` lines 88-105):
`None` for a falsy input, otherwise lower-case, strip, and apply the
correction table with the cleaned string itself as the default. -/
def cleanCommand (command : String) : Option String :=
  if command = "" then none
  else
    some ((lookupMapping (pyStrip (pyLower command))).getD
      (pyStrip (pyLower command)))

/-- Python truthiness of a command slot: `not self.voice_command`
is true exactly when the slot is `None` or the empty string. -/
def slotTruthy (o : Option String) : Prop := o.getD "" ≠ ""

instance (o : Option String) : Decidable (slotTruthy o) := by
  unfold slotTruthy; infer_instance

/-- The actuation collaborator behind `_execute_command`: called with
the matched command, it either returns normally or raises. -/
def Collab : Type := String → Except String Unit

/-- `CommandMatcher._execute_command` (`main9.py` lines 133-146):
delegate to the collaborator; a raised exception is caught by the
`try/except` and turned into `False`; a normal return yields `True`. -/
def executeCommand (collab : Collab) (command : String) : Bool :=
  match collab command with
  | Except.ok _ => true
  | Except.error _ => false

/-- `CommandMatcher._check_match` (`main9.py` lines 107-131):
return unless both slots are truthy; on equal commands within the
timeout window, increment the match counter, execute the command
(incrementing the executed counter on success), and reset both slots
and both times. -/
def checkMatch (collab : Collab) (s : MatcherState) : MatcherState :=
  if ¬ slotTruthy s.voice_command ∨ ¬ slotTruthy s.ocr_command then s
  else if s.voice_command.getD "" = s.ocr_command.getD "" ∧
          |s.voice_time - s.ocr_time| ≤ s.timeout then
    { s with
      voice_command := none
      ocr_command := none
      voice_time := 0
      ocr_time := 0
      stats := { s.stats with
        matched_commands := s.stats.matched_commands + 1
        executed_commands := s.stats.executed_commands +
          (if executeCommand collab (s.voice_command.getD "") then 1 else 0) } }
  else s

/-- The slot write of `add_command` (`main9.py` lines 73-83):
overwrite the slot and timestamp of the submitting source and bump the
observation counter of that source; any other source writes nothing. -/
def applySlot (s : MatcherState) (cleaned source : String) (now : Int) :
    MatcherState :=
  if source = "VOICE" then
    { s with
      voice_command := some cleaned
      voice_time := now
      stats := { s.stats with voice_commands := s.stats.voice_commands + 1 } }
  else if source = "OCR" then
    { s with
      ocr_command := some cleaned
      ocr_time := now
      stats := { s.stats with ocr_commands := s.stats.ocr_commands + 1 } }
  else s

/-- `CommandMatcher.add_command` (`main9.py` lines 62-86), with the
current wall-clock reading passed explicitly. Returns the new state
and `true` when the observation was accepted, or the unchanged state
and `false` when it was rejected as invalid. -/
def addCommand (collab : Collab) (s : MatcherState)
    (command source : String) (now : Int) : MatcherState × Bool :=
  match cleanCommand command with
  | none => (s, false)
  | some cleaned =>
    if cleaned = "" ∨ cleaned ∉ validCommands then (s, false)
    else (checkMatch collab (applySlot s cleaned source now), true)

/-- `CommandMatcher.cleanup_old_commands` (`main9.py` lines 148-161):
clear each slot whose stored time is truthy (nonzero) and older than
the timeout. -/
def cleanupOldCommands (s : MatcherState) (now : Int) : MatcherState :=
  let s1 :=
    if s.voice_time ≠ 0 ∧ now - s.voice_time > s.timeout then
      { s with voice_command := none, voice_time := 0 }
    else s
  if s1.ocr_time ≠ 0 ∧ now - s1.ocr_time > s1.timeout then
    { s1 with ocr_command := none, ocr_time := 0 }
  else s1

/-- A collaborator that always actuates successfully. -/
def collabOk : Collab := fun _ => Except.ok ()

/-- A collaborator that always raises. -/
def collabFail : Collab := fun _ => Except.error "actuation fault"

/-- The invariant relating each slot to its stored time: the slot holds
a command exactly when the stored time is nonzero. -/
def slotInv (s : MatcherState) : Prop :=
  (s.voice_command ≠ none ↔ s.voice_time ≠ 0) ∧
  (s.ocr_command ≠ none ↔ s.ocr_time ≠ 0)

instance (s : MatcherState) : Decidable (slotInv s) := by
  unfold slotInv; infer_instance

/-! ## Lock discipline of `add_command`, as an event trace

`add_command` (`main9.py` lines 62-86) opens with `with self.lock:` and
the whole body — the slot write, `_check_match`, and through it
`_execute_command` — runs before the `with` block closes. The trace
below records only the lock-relevant events of one call. -/

/-- Lock acquisition, dispatcher execution, lock release. -/
inductive LockEvent where
  | acquire
  | dispatch (command : String)
  | release
deriving DecidableEq, Repr

/-- The dispatcher invocations performed by `_check_match` on state `s`:
one `dispatch` exactly when the match rule fires. -/
def checkMatchEvents (s : MatcherState) : List LockEvent :=
  if ¬ slotTruthy s.voice_command ∨ ¬ slotTruthy s.ocr_command then []
  else if s.voice_command.getD "" = s.ocr_command.getD "" ∧
          |s.voice_time - s.ocr_time| ≤ s.timeout then
    [LockEvent.dispatch (s.voice_command.getD "")]
  else []

/-- The lock-relevant event trace of one `add_command` call: the lock is
acquired first and released last, and every dispatcher invocation
happens in between, because `_check_match` is called from inside the
`with self.lock:` block. -/
def addCommandEvents (s : MatcherState) (command source : String)
    (now : Int) : List LockEvent :=
  [LockEvent.acquire] ++
    (match cleanCommand command with
     | none => []
     | some cleaned =>
       if cleaned = "" ∨ cleaned ∉ validCommands then []
       else checkMatchEvents (applySlot s cleaned source now)) ++
    [LockEvent.release]

/-! ## Process supervision (`HRCMainSystem.monitor_and_restart`) -/

/-- A child-process handle: the pid `Popen` returned, the script it was
started from, and whether `poll()` reports it as exited. -/
structure Proc where
  pid : Nat
  script : String
  exited : Bool
deriving DecidableEq, Repr

/-- The registry `self.processes`, keyed by the three fixed names of the
`scripts` dict in `monitor_and_restart` (`main9.py` lines 319-323);
a `none` field models a name absent from the registry. -/
structure SupState where
  voiceProc : Option Proc
  ocrProc : Option Proc
  guiProc : Option Proc
deriving DecidableEq, Repr

/-- The per-name body of the restart loop (`main9.py` lines 325-339):
if the name is registered and its handle polls as exited, `Popen` the
same script again and replace the stale handle; `spawnPid` is the pid
the OS gives the fresh process. -/
def restartIfDead (spawnPid : Nat) (script : String) (p : Option Proc) :
    Option Proc :=
  match p with
  | none => none
  | some q => if q.exited then some ⟨spawnPid, script, false⟩ else some q

/-- One iteration of the `monitor_and_restart` loop (`main9.py` lines
315-341), the fixed `scripts` dict unrolled. -/
def monitorStep (spawnPid : String → Nat) (s : SupState) : SupState :=
  { voiceProc := restartIfDead (spawnPid "VOICE") "voice4.py" s.voiceProc
    ocrProc := restartIfDead (spawnPid "OCR") "ocr4.py" s.ocrProc
    guiProc := restartIfDead (spawnPid "GUI") "hrc_gui_dashboard3.py" s.guiProc }

/-- An environment event, not code under supervision control: every
managed process exits. Used to build multi-restart histories. -/
def allExit (s : SupState) : SupState :=
  { voiceProc := s.voiceProc.map (fun q => ⟨q.pid, q.script, true⟩)
    ocrProc := s.ocrProc.map (fun q => ⟨q.pid, q.script, true⟩)
    guiProc := s.guiProc.map (fun q => ⟨q.pid, q.script, true⟩) }

/-! ## The presentation-side matcher (`hrc_gui_dashboard3.py`) -/

/-- The matcher-relevant state of `HRCDashboard`: current per-source
command and time, the match history, and the log lines it prints.
Times are `Option Int` because the dashboard initialises them to `None`
(and a `datetime` value is always truthy). A `guiLog` entry records the
value interpolated into a `[GUI] MATCH FOUND:` line. -/
structure DashState where
  voiceCmd : Option String
  ocrCmd : Option String
  voiceTime : Option Int
  ocrTime : Option Int
  matchedCommands : List String
  guiLog : List (Option String)
deriving DecidableEq, Repr

/-- `HRCDashboard.check_command_match` (`hrc_gui_dashboard3.py` lines
459-482): if both commands and both times are truthy, the commands are
equal, and the times are within 10 seconds, append a match entry (built
from the still-populated voice command), reset all four current fields,
and then print `[GUI] MATCH FOUND: {self.current_voice_command}` —
reading the voice slot AFTER the reset, which is what `guiLog`
records. -/
def checkCommandMatch (s : DashState) : DashState :=
  if ¬ slotTruthy s.voiceCmd ∨ ¬ slotTruthy s.ocrCmd ∨
     s.voiceTime = none ∨ s.ocrTime = none then s
  else if s.voiceCmd.getD "" = s.ocrCmd.getD "" then
    if |s.voiceTime.getD 0 - s.ocrTime.getD 0| ≤ 10 then
      let s1 : DashState :=
        { s with
          matchedCommands := s.matchedCommands ++ [s.voiceCmd.getD ""]
          voiceCmd := none
          ocrCmd := none
          voiceTime := none
          ocrTime := none }
      { s1 with guiLog := s1.guiLog ++ [s1.voiceCmd] }
    else s
  else s

/-! ## Helper lemmas -/

theorem slotTruthy_none : ¬ slotTruthy (none : Option String) := by decide

theorem slotTruthy_some {c : String} (hc : c ≠ "") : slotTruthy (some c) := by
  simpa [slotTruthy] using hc

theorem valid_ne_empty {c : String} (hc : c ∈ validCommands) : c ≠ "" := by
  rintro rfl; revert hc; decide

theorem mapping_values_valid : ∀ p ∈ mappings, p.2 ∈ validCommands := by decide

theorem addCommand_accepted (collab : Collab) (s : MatcherState) {t c : String}
    (src : String) (n : Int) (h : cleanCommand t = some c)
    (hc : c ∈ validCommands) :
    addCommand collab s t src n = (checkMatch collab (applySlot s c src n), true) := by
  unfold addCommand
  rw [h]
  dsimp only
  rw [if_neg]
  simp [valid_ne_empty hc, hc]

theorem checkMatch_skip_voice (collab : Collab) (s : MatcherState)
    (h : ¬ slotTruthy s.voice_command) : checkMatch collab s = s := by
  unfold checkMatch; rw [if_pos (Or.inl h)]

theorem checkMatch_skip_ocr (collab : Collab) (s : MatcherState)
    (h : ¬ slotTruthy s.ocr_command) : checkMatch collab s = s := by
  unfold checkMatch; rw [if_pos (Or.inr h)]

theorem checkMatch_fires (collab : Collab) (s : MatcherState) {c : String}
    (hv : s.voice_command = some c) (ho : s.ocr_command = some c) (hc : c ≠ "")
    (ht : |s.voice_time - s.ocr_time| ≤ s.timeout) :
    checkMatch collab s =
      { s with
        voice_command := none
        ocr_command := none
        voice_time := 0
        ocr_time := 0
        stats := { s.stats with
          matched_commands := s.stats.matched_commands + 1
          executed_commands := s.stats.executed_commands +
            (if executeCommand collab c then 1 else 0) } } := by
  unfold checkMatch
  rw [hv, ho]
  simp [slotTruthy, hc, ht]

theorem applySlot_voice (s : MatcherState) (c : String) (n : Int) :
    applySlot s c "VOICE" n =
      { s with
        voice_command := some c
        voice_time := n
        stats := { s.stats with voice_commands := s.stats.voice_commands + 1 } } := by
  unfold applySlot
  rw [if_pos rfl]

theorem applySlot_ocr (s : MatcherState) (c : String) (n : Int) :
    applySlot s c "OCR" n =
      { s with
        ocr_command := some c
        ocr_time := n
        stats := { s.stats with ocr_commands := s.stats.ocr_commands + 1 } } := by
  unfold applySlot
  rw [if_neg (by decide), if_pos rfl]

/-! ## The claims -/

/-- C2: every raw token whose lower-cased, stripped form is a key of the
correction table normalizes to the mapped canonical command (and that
mapped value is canonical); every raw token whose lower-cased, stripped
form is neither a table key nor a canonical command is rejected by
`add_command` as invalid, the state untouched. Normalization itself
(`cleanCommand`) is a pure Lean function of the token alone — it reads
and writes no matcher state. -/
theorem normalize_table_hit_and_invalid_reject (tok v : String) :
    (lookupMapping (pyStrip (pyLower tok)) = some v →
      cleanCommand tok = some v ∧ v ∈ validCommands) ∧
    (lookupMapping (pyStrip (pyLower tok)) = none →
      pyStrip (pyLower tok) ∉ validCommands →
      ∀ (collab : Collab) (s : MatcherState) (src : String) (now : Int),
        addCommand collab s tok src now = (s, false)) := by
  constructor
  · intro h
    have htok : tok ≠ "" := by
      rintro rfl
      rw [show pyStrip (pyLower "") = "" from rfl] at h
      rw [show lookupMapping "" = none from by decide] at h
      exact Option.noConfusion h
    refine ⟨?_, ?_⟩
    · unfold cleanCommand
      rw [if_neg htok, h]
      rfl
    · unfold lookupMapping at h
      cases hfind : mappings.find? (fun p => p.1 = pyStrip (pyLower tok)) with
      | none => rw [hfind] at h; exact Option.noConfusion h
      | some p =>
        rw [hfind] at h
        have hpv : p.2 = v := by simpa using h
        exact hpv ▸ mapping_values_valid p (List.mem_of_find?_eq_some hfind)
  · intro h1 h2 collab s src now
    by_cases htok : tok = ""
    · subst htok
      rfl
    · have hclean : cleanCommand tok = some (pyStrip (pyLower tok)) := by
        unfold cleanCommand
        rw [if_neg htok, h1]
        rfl
      unfold addCommand
      rw [hclean]
      dsimp only
      rw [if_pos (Or.inr h2)]

/-- C2 witness: the table key "to" normalizes to the canonical command
"two"; the off-table, non-canonical token "banana" is rejected with the
matcher state unchanged. -/
theorem normalize_table_hit_and_invalid_reject_witness :
    (cleanCommand "to" = some "two" ∧ "two" ∈ validCommands) ∧
    addCommand collabOk (initMatcher 10) "banana" "VOICE" 5
      = (initMatcher 10, false) := by
  constructor
  · exact (normalize_table_hit_and_invalid_reject "to" "two").1 (by decide)
  · exact (normalize_table_hit_and_invalid_reject "banana" "banana").2
      (by decide) (by decide) collabOk (initMatcher 10) "VOICE" 5

/-- C3: a submission whose token normalizes to an invalid command is
rejected (result flag `false`) and the whole matcher state — both slots,
both timestamps, every counter — is returned exactly as it was. -/
theorem invalid_submission_rejected (collab : Collab) (s : MatcherState)
    (command source : String) (now : Int)
    (h : (cleanCommand command).getD "" ∉ validCommands) :
    addCommand collab s command source now = (s, false) := by
  unfold addCommand
  cases hc : cleanCommand command with
  | none => rfl
  | some c =>
    rw [hc] at h
    simp only [Option.getD_some] at h
    dsimp only
    rw [if_pos (Or.inr h)]

/-- C3 witness: the token "six" is outside the table and the canonical
set; submitting it leaves the freshly initialised matcher (with the
15-second production timeout) unchanged and reports rejection. -/
theorem invalid_submission_rejected_witness :
    addCommand collabOk (initMatcher 15) "six" "OCR" 7
      = (initMatcher 15, false) :=
  invalid_submission_rejected collabOk (initMatcher 15) "six" "OCR" 7 (by decide)

/-- An accepted VOICE submission into a state whose OCR slot is empty
just populates the voice slot: `_check_match` returns without firing. -/
theorem first_voice_submission (collab : Collab) (s : MatcherState)
    {t c : String} (n : Int) (h : cleanCommand t = some c)
    (hc : c ∈ validCommands) (ho : s.ocr_command = none) :
    (addCommand collab s t "VOICE" n).1 =
      { s with
        voice_command := some c
        voice_time := n
        stats := { s.stats with voice_commands := s.stats.voice_commands + 1 } } := by
  rw [addCommand_accepted collab s "VOICE" n h hc]
  dsimp only
  rw [applySlot_voice]
  exact checkMatch_skip_ocr collab _ (by simp [slotTruthy, ho])

/-- An accepted OCR submission into a state whose VOICE slot is empty
just populates the OCR slot. -/
theorem first_ocr_submission (collab : Collab) (s : MatcherState)
    {t c : String} (n : Int) (h : cleanCommand t = some c)
    (hc : c ∈ validCommands) (hv : s.voice_command = none) :
    (addCommand collab s t "OCR" n).1 =
      { s with
        ocr_command := some c
        ocr_time := n
        stats := { s.stats with ocr_commands := s.stats.ocr_commands + 1 } } := by
  rw [addCommand_accepted collab s "OCR" n h hc]
  dsimp only
  rw [applySlot_ocr]
  exact checkMatch_skip_voice collab _ (by simp [slotTruthy, hv])

/-- An accepted OCR submission of the command already held in the voice
slot, within the window, fires the match and resets both slots. -/
theorem second_ocr_submission (collab : Collab) (s : MatcherState)
    {t c : String} (n : Int) (h : cleanCommand t = some c)
    (hc : c ∈ validCommands) (hv : s.voice_command = some c)
    (ht : |s.voice_time - n| ≤ s.timeout) :
    (addCommand collab s t "OCR" n).1 =
      { s with
        voice_command := none
        ocr_command := none
        voice_time := 0
        ocr_time := 0
        stats := { s.stats with
          ocr_commands := s.stats.ocr_commands + 1
          matched_commands := s.stats.matched_commands + 1
          executed_commands := s.stats.executed_commands +
            (if executeCommand collab c then 1 else 0) } } := by
  rw [addCommand_accepted collab s "OCR" n h hc]
  dsimp only
  rw [applySlot_ocr]
  rw [checkMatch_fires collab _ (by simp [hv]) (by simp) (valid_ne_empty hc)
    (by simpa using ht)]

/-- An accepted VOICE submission of the command already held in the OCR
slot, within the window, fires the match and resets both slots. -/
theorem second_voice_submission (collab : Collab) (s : MatcherState)
    {t c : String} (n : Int) (h : cleanCommand t = some c)
    (hc : c ∈ validCommands) (ho : s.ocr_command = some c)
    (ht : |n - s.ocr_time| ≤ s.timeout) :
    (addCommand collab s t "VOICE" n).1 =
      { s with
        voice_command := none
        ocr_command := none
        voice_time := 0
        ocr_time := 0
        stats := { s.stats with
          voice_commands := s.stats.voice_commands + 1
          matched_commands := s.stats.matched_commands + 1
          executed_commands := s.stats.executed_commands +
            (if executeCommand collab c then 1 else 0) } } := by
  rw [addCommand_accepted collab s "VOICE" n h hc]
  dsimp only
  rw [applySlot_voice]
  rw [checkMatch_fires collab _ (by simp) (by simp [ho]) (valid_ne_empty hc)
    (by simpa using ht)]

/-- C1: from a state with both slots empty, submitting a VOICE and an
OCR observation of the same canonical command, in either order, with
wall-clock readings at most the timeout window apart, fires exactly one
match — the matched counter increments by exactly 1 — and leaves both
slots empty and both times zero afterwards. -/
theorem pair_within_window_matches_once (collab : Collab) (s : MatcherState)
    (t1 t2 c : String) (n1 n2 : Int)
    (hv : s.voice_command = none) (ho : s.ocr_command = none)
    (h1 : cleanCommand t1 = some c) (h2 : cleanCommand t2 = some c)
    (hc : c ∈ validCommands) (ht : |n1 - n2| ≤ s.timeout) :
    ((addCommand collab (addCommand collab s t1 "VOICE" n1).1 t2 "OCR" n2).1.stats.matched_commands
        = s.stats.matched_commands + 1 ∧
      (addCommand collab (addCommand collab s t1 "VOICE" n1).1 t2 "OCR" n2).1.voice_command = none ∧
      (addCommand collab (addCommand collab s t1 "VOICE" n1).1 t2 "OCR" n2).1.ocr_command = none ∧
      (addCommand collab (addCommand collab s t1 "VOICE" n1).1 t2 "OCR" n2).1.voice_time = 0 ∧
      (addCommand collab (addCommand collab s t1 "VOICE" n1).1 t2 "OCR" n2).1.ocr_time = 0) ∧
    ((addCommand collab (addCommand collab s t2 "OCR" n2).1 t1 "VOICE" n1).1.stats.matched_commands
        = s.stats.matched_commands + 1 ∧
      (addCommand collab (addCommand collab s t2 "OCR" n2).1 t1 "VOICE" n1).1.voice_command = none ∧
      (addCommand collab (addCommand collab s t2 "OCR" n2).1 t1 "VOICE" n1).1.ocr_command = none ∧
      (addCommand collab (addCommand collab s t2 "OCR" n2).1 t1 "VOICE" n1).1.voice_time = 0 ∧
      (addCommand collab (addCommand collab s t2 "OCR" n2).1 t1 "VOICE" n1).1.ocr_time = 0) := by
  constructor
  · rw [first_voice_submission collab s n1 h1 hc ho]
    rw [second_ocr_submission collab _ n2 h2 hc (by simp) (by simpa using ht)]
    simp
  · rw [first_ocr_submission collab s n2 h2 hc hv]
    rw [second_voice_submission collab _ n1 h1 hc (by simp) (by simpa using ht)]
    simp

/-- C1 witness: voice "one" at t=3 then OCR "1" at t=5 (and in the
reverse order) against a fresh 10-second matcher gives exactly one
match and empty slots. -/
theorem pair_within_window_matches_once_witness :
    (addCommand collabOk (addCommand collabOk (initMatcher 10) "one" "VOICE" 3).1
        "1" "OCR" 5).1.stats.matched_commands = 1 ∧
    (addCommand collabOk (addCommand collabOk (initMatcher 10) "1" "OCR" 5).1
        "one" "VOICE" 3).1.stats.matched_commands = 1 ∧
    (addCommand collabOk (addCommand collabOk (initMatcher 10) "one" "VOICE" 3).1
        "1" "OCR" 5).1.voice_command = none := by
  have h := pair_within_window_matches_once collabOk (initMatcher 10)
    "one" "1" "one" 3 5 rfl rfl (by decide) (by decide) (by decide) (by decide)
  exact ⟨h.1.1, h.2.1, h.1.2.1⟩

/-- C4: `cleanup_old_commands` clears exactly the populated slots whose
age exceeds the timeout window, leaves every other slot and timestamp
untouched, and changes no statistics counter (in particular it never
fires a match). Stated for states satisfying the slot/time invariant,
which every reachable state satisfies. -/
theorem sweep_clears_exactly_expired (s : MatcherState) (now : Int)
    (hv : s.voice_command ≠ none ↔ s.voice_time ≠ 0)
    (ho : s.ocr_command ≠ none ↔ s.ocr_time ≠ 0) :
    (cleanupOldCommands s now).stats = s.stats ∧
    (cleanupOldCommands s now).timeout = s.timeout ∧
    ((s.voice_command ≠ none ∧ now - s.voice_time > s.timeout) →
      (cleanupOldCommands s now).voice_command = none ∧
      (cleanupOldCommands s now).voice_time = 0) ∧
    (¬ (s.voice_command ≠ none ∧ now - s.voice_time > s.timeout) →
      (cleanupOldCommands s now).voice_command = s.voice_command ∧
      (cleanupOldCommands s now).voice_time = s.voice_time) ∧
    ((s.ocr_command ≠ none ∧ now - s.ocr_time > s.timeout) →
      (cleanupOldCommands s now).ocr_command = none ∧
      (cleanupOldCommands s now).ocr_time = 0) ∧
    (¬ (s.ocr_command ≠ none ∧ now - s.ocr_time > s.timeout) →
      (cleanupOldCommands s now).ocr_command = s.ocr_command ∧
      (cleanupOldCommands s now).ocr_time = s.ocr_time) := by
  unfold cleanupOldCommands
  by_cases hc1 : s.voice_time ≠ 0 ∧ now - s.voice_time > s.timeout <;>
    by_cases hc2 : s.ocr_time ≠ 0 ∧ now - s.ocr_time > s.timeout <;>
      simp [hc1, hc2, hv, ho]

/-- C4 witness: a single VOICE observation at t=1 and a sweep at t=12
with a 10-second window clears the voice slot; the statistics are
untouched and its matched counter was and stays 0 — no match ever
fired. -/
theorem sweep_clears_exactly_expired_witness :
    ((cleanupOldCommands ((addCommand collabOk (initMatcher 10) "one" "VOICE" 1).1) 12).voice_command = none ∧
      (cleanupOldCommands ((addCommand collabOk (initMatcher 10) "one" "VOICE" 1).1) 12).voice_time = 0) ∧
    (cleanupOldCommands ((addCommand collabOk (initMatcher 10) "one" "VOICE" 1).1) 12).stats
      = ((addCommand collabOk (initMatcher 10) "one" "VOICE" 1).1).stats ∧
    ((addCommand collabOk (initMatcher 10) "one" "VOICE" 1).1).stats.matched_commands = 0 ∧
    (cleanupOldCommands ((addCommand collabOk (initMatcher 10) "one" "VOICE" 1).1) 12).stats.matched_commands = 0 := by
  have h := sweep_clears_exactly_expired
    ((addCommand collabOk (initMatcher 10) "one" "VOICE" 1).1) 12 (by decide) (by decide)
  refine ⟨h.2.2.1 (by decide), h.1, by decide, ?_⟩
  rw [h.1]
  decide

/-- C5 amended: when the dispatch of a matched command fails, the match
counter increments by 1 and the dispatch-success (`executed_commands`)
counter does not change; the per-source observation counters are also
untouched by the match step. -/
theorem match_dispatch_failure_counters (collab : Collab) (s : MatcherState)
    (c e : String)
    (hv : s.voice_command = some c) (ho : s.ocr_command = some c) (hc : c ≠ "")
    (ht : |s.voice_time - s.ocr_time| ≤ s.timeout)
    (hf : collab c = Except.error e) :
    (checkMatch collab s).stats.matched_commands = s.stats.matched_commands + 1 ∧
    (checkMatch collab s).stats.executed_commands = s.stats.executed_commands ∧
    (checkMatch collab s).stats.voice_commands = s.stats.voice_commands ∧
    (checkMatch collab s).stats.ocr_commands = s.stats.ocr_commands := by
  rw [checkMatch_fires collab s hv ho hc ht]
  simp [executeCommand, hf]

/-- C5 witness: a raising collaborator on a both-slots-"one" state:
matched counter 0 → 1, executed counter stays 0. -/
theorem match_dispatch_failure_counters_witness :
    (checkMatch collabFail ⟨some "one", 3, some "one", 5, 10, ⟨1, 1, 0, 0⟩⟩).stats.matched_commands
      = (⟨1, 1, 0, 0⟩ : Stats).matched_commands + 1 ∧
    (checkMatch collabFail ⟨some "one", 3, some "one", 5, 10, ⟨1, 1, 0, 0⟩⟩).stats.executed_commands
      = (⟨1, 1, 0, 0⟩ : Stats).executed_commands := by
  have h := match_dispatch_failure_counters collabFail
    ⟨some "one", 3, some "one", 5, 10, ⟨1, 1, 0, 0⟩⟩ "one" "actuation fault"
    rfl rfl (by decide) (by decide) rfl
  exact ⟨h.1, h.2.1⟩

/-- C5 counterexample: the statistics dictionary of the matcher holds
exactly four counters — per-source observations, matches, and executed
(dispatch-success) commands. After a matched command whose dispatch
fails (voice "one" at t=3, OCR "1" at t=5, collaborator raising), the
statistics go from ⟨1, 0, 0, 0⟩ to ⟨1, 1, 1, 0⟩: the OCR observation
counter and the match counter increment, the executed counter does not,
and no other counter exists — there is no dispatch-failure counter to
increment, contrary to the claim. -/
theorem no_dispatch_failure_counter :
    ((addCommand collabFail ((addCommand collabFail (initMatcher 10) "one" "VOICE" 3).1)
        "1" "OCR" 5).1.stats = ⟨1, 1, 1, 0⟩) ∧
    ((addCommand collabFail (initMatcher 10) "one" "VOICE" 3).1.stats = ⟨1, 0, 0, 0⟩) := by
  decide

/-- C7: whatever the actuation collaborator does — succeed or raise —
the matcher never lets a fault escape: a raised exception is converted
into a `false` (failure) outcome by the `try/except` of
`_execute_command` (in the embedding `addCommand`/`checkMatch` are
total functions into states, never into exceptions), the executed
counter is not incremented on a fault, and after the match both slots
and both timestamps are cleared regardless of the dispatch outcome. -/
theorem dispatch_fault_contained (collab : Collab) (s : MatcherState) (c : String)
    (hv : s.voice_command = some c) (ho : s.ocr_command = some c) (hc : c ≠ "")
    (ht : |s.voice_time - s.ocr_time| ≤ s.timeout) :
    (checkMatch collab s).voice_command = none ∧
    (checkMatch collab s).ocr_command = none ∧
    (checkMatch collab s).voice_time = 0 ∧
    (checkMatch collab s).ocr_time = 0 ∧
    (∀ e : String, collab c = Except.error e →
      executeCommand collab c = false ∧
      (checkMatch collab s).stats.executed_commands = s.stats.executed_commands) := by
  rw [checkMatch_fires collab s hv ho hc ht]
  refine ⟨rfl, rfl, rfl, rfl, fun e he => ?_⟩
  simp [executeCommand, he]

/-- C7 witness: the always-raising collaborator on a both-slots-"one"
state: slots cleared, fault converted to failure, executed counter
unchanged. -/
theorem dispatch_fault_contained_witness :
    (checkMatch collabFail ⟨some "one", 3, some "one", 5, 10, ⟨1, 1, 0, 0⟩⟩).voice_command = none ∧
    executeCommand collabFail "one" = false ∧
    (checkMatch collabFail ⟨some "one", 3, some "one", 5, 10, ⟨1, 1, 0, 0⟩⟩).stats.executed_commands = 0 := by
  have h := dispatch_fault_contained collabFail
    ⟨some "one", 3, some "one", 5, 10, ⟨1, 1, 0, 0⟩⟩ "one"
    rfl rfl (by decide) (by decide)
  have h5 := h.2.2.2.2 "actuation fault" rfl
  exact ⟨h.1, h5.1, h5.2⟩

/-- `_check_match` preserves the slot/time invariant. -/
theorem checkMatch_slotInv (collab : Collab) (s : MatcherState)
    (hs : slotInv s) : slotInv (checkMatch collab s) := by
  unfold checkMatch
  split
  · exact hs
  · split
    · simp [slotInv]
    · exact hs

/-- The slot write of an accepted submission preserves the invariant
when the wall-clock reading is nonzero. -/
theorem applySlot_slotInv (s : MatcherState) (c src : String) (n : Int)
    (hn : n ≠ 0) (hs : slotInv s) : slotInv (applySlot s c src n) := by
  unfold applySlot slotInv
  unfold slotInv at hs
  split
  · exact ⟨by simp [hn], by simpa using hs.2⟩
  · split
    · exact ⟨by simpa using hs.1, by simp [hn]⟩
    · exact hs

/-- `cleanup_old_commands` preserves the slot/time invariant. -/
theorem cleanup_slotInv (s : MatcherState) (now : Int) (hs : slotInv s) :
    slotInv (cleanupOldCommands s now) := by
  obtain ⟨hs1, hs2⟩ := hs
  unfold cleanupOldCommands slotInv
  by_cases hc1 : s.voice_time ≠ 0 ∧ now - s.voice_time > s.timeout <;>
    by_cases hc2 : s.ocr_time ≠ 0 ∧ now - s.ocr_time > s.timeout <;>
      simp [hc1, hc2, hs1, hs2]

/-- `add_command` preserves the slot/time invariant. -/
theorem addCommand_slotInv (collab : Collab) (s : MatcherState)
    (command source : String) (now : Int) (hn : now ≠ 0) (hs : slotInv s) :
    slotInv (addCommand collab s command source now).1 := by
  unfold addCommand
  cases hc : cleanCommand command with
  | none => exact hs
  | some c =>
    dsimp only
    split
    · exact hs
    · exact checkMatch_slotInv collab _ (applySlot_slotInv s c source now hn hs)

/-- C10: every matcher operation — submit (`add_command`), the match
check, and the sweep (`cleanup_old_commands`) — preserves the invariant
that a per-source slot is populated exactly when that source has a
nonzero stored timestamp: slot and timestamp are set together and
cleared together. The wall-clock reading is nonzero, as `time.time()`
always is. -/
theorem matcher_ops_preserve_slot_invariant (collab : Collab) (s : MatcherState)
    (command source : String) (now : Int) (hn : now ≠ 0) (hs : slotInv s) :
    slotInv (addCommand collab s command source now).1 ∧
    slotInv (checkMatch collab s) ∧
    slotInv (cleanupOldCommands s now) :=
  ⟨addCommand_slotInv collab s command source now hn hs,
   checkMatch_slotInv collab s hs,
   cleanup_slotInv s now hs⟩

/-- C10 witness: the invariant holds through a submission, a match
check, and a sweep on a concrete half-populated state. -/
theorem matcher_ops_preserve_slot_invariant_witness :
    slotInv (addCommand collabOk ((addCommand collabOk (initMatcher 10) "one" "VOICE" 3).1) "1" "OCR" 5).1 ∧
    slotInv (checkMatch collabOk ((addCommand collabOk (initMatcher 10) "one" "VOICE" 3).1)) ∧
    slotInv (cleanupOldCommands ((addCommand collabOk (initMatcher 10) "one" "VOICE" 3).1) 5) :=
  matcher_ops_preserve_slot_invariant collabOk
    ((addCommand collabOk (initMatcher 10) "one" "VOICE" 3).1) "1" "OCR" 5
    (by decide) (by decide)

/-- C8, evaluated at a failing input: submitting (VOICE, "one") at t=3
into a fresh 10-second matcher and then (OCR, "one") at t=5 fires a
match, and the event trace of the second `add_command` call is
`[acquire, dispatch "one", release]` — the dispatcher runs strictly
between lock acquisition and lock release, because `_check_match` (and
through it `_execute_command`) is called from inside the
`with self.lock:` block. This contradicts the requirement that dispatch
execution happen outside the critical section. -/
theorem dispatch_occurs_under_lock :
    addCommandEvents ((addCommand collabOk (initMatcher 10) "one" "VOICE" 3).1)
        "one" "OCR" 5
      = [LockEvent.acquire, LockEvent.dispatch "one", LockEvent.release] := by
  decide

/-- C6 counterexample: the supervisor keeps no restart counter. The
whole supervisor state (the registry of name-to-handle bindings) after
ONE restart of the dead VOICE process equals the state after TWO
restarts of it (first poll respawns with pid 9, the fresh process dies,
second poll respawns with pid 7 — the same pid the one-restart history
got). Since the full states are identical while the number of restarts
differs (1 vs 2), no component of the supervisor state is a per-process
restart counter that increments by exactly 1 per restart; the claimed
counter does not exist in the code. -/
theorem no_restart_counter_in_state :
    monitorStep (fun _ => 7) ⟨some ⟨3, "voice4.py", true⟩, none, none⟩
      = monitorStep (fun _ => 7)
          (allExit (monitorStep (fun _ => 9)
            ⟨some ⟨3, "voice4.py", true⟩, none, none⟩)) ∧
    monitorStep (fun _ => 7) ⟨some ⟨3, "voice4.py", true⟩, none, none⟩
      = ⟨some ⟨7, "voice4.py", false⟩, none, none⟩ := by
  decide

/-- C6 amended: a managed process whose handle polls as exited is
respawned within the same poll iteration, with the same name and the
same script command, the stale handle replaced by the fresh running
one; a live process is left untouched. (The code maintains no
per-process restart counter.) -/
theorem monitor_respawns_dead (spawnPid : String → Nat) (s : SupState) :
    (∀ p : Proc, s.voiceProc = some p → p.exited = true →
      (monitorStep spawnPid s).voiceProc
        = some ⟨spawnPid "VOICE", "voice4.py", false⟩) ∧
    (∀ p : Proc, s.ocrProc = some p → p.exited = true →
      (monitorStep spawnPid s).ocrProc
        = some ⟨spawnPid "OCR", "ocr4.py", false⟩) ∧
    (∀ p : Proc, s.guiProc = some p → p.exited = true →
      (monitorStep spawnPid s).guiProc
        = some ⟨spawnPid "GUI", "hrc_gui_dashboard3.py", false⟩) ∧
    (∀ p : Proc, s.voiceProc = some p → p.exited = false →
      (monitorStep spawnPid s).voiceProc = some p) := by
  refine ⟨?_, ?_, ?_, ?_⟩ <;> intro p hp he <;>
    simp [monitorStep, restartIfDead, hp, he]

/-- C6 amended witness: a dead VOICE handle (pid 3) is replaced in one
step by a running pid-42 handle for the same script; a live VOICE
handle is untouched by the poll. -/
theorem monitor_respawns_dead_witness :
    (monitorStep (fun _ => 42)
        ⟨some ⟨3, "voice4.py", true⟩, none, none⟩).voiceProc
      = some ⟨42, "voice4.py", false⟩ ∧
    (monitorStep (fun _ => 42)
        ⟨some ⟨3, "voice4.py", false⟩, none, none⟩).voiceProc
      = some ⟨3, "voice4.py", false⟩ := by
  constructor
  · exact (monitor_respawns_dead (fun _ => 42)
      ⟨some ⟨3, "voice4.py", true⟩, none, none⟩).1 ⟨3, "voice4.py", true⟩ rfl rfl
  · exact (monitor_respawns_dead (fun _ => 42)
      ⟨some ⟨3, "voice4.py", false⟩, none, none⟩).2.2.2 ⟨3, "voice4.py", false⟩ rfl rfl

/-- C9: in the presentation-side matcher of the dashboard, whenever a
match fires, the match-history entry (built before the reset) records
the matched command, but the `[GUI] MATCH FOUND:` log line is printed
after the slot reset and interpolates the just-cleared voice slot: for
every match it reports the cleared value (`None`) instead of the
matched command. -/
theorem dashboard_match_logs_cleared_slot (s : DashState)
    (hv : slotTruthy s.voiceCmd) (ho : slotTruthy s.ocrCmd)
    (hvt : s.voiceTime ≠ none) (hot : s.ocrTime ≠ none)
    (heq : s.voiceCmd.getD "" = s.ocrCmd.getD "")
    (ht : |s.voiceTime.getD 0 - s.ocrTime.getD 0| ≤ 10) :
    (checkCommandMatch s).guiLog = s.guiLog ++ [none] ∧
    (checkCommandMatch s).matchedCommands
      = s.matchedCommands ++ [s.voiceCmd.getD ""] ∧
    (checkCommandMatch s).voiceCmd = none ∧
    (checkCommandMatch s).ocrCmd = none := by
  unfold checkCommandMatch
  rw [if_neg (by push_neg; exact ⟨hv, ho, hvt, hot⟩), if_pos heq, if_pos ht]
  simp

/-- C9 witness: a concrete dashboard state with both current commands
"two" and times 0 and 3: the match entry records "two", the log line
records the cleared slot (`none`). -/
theorem dashboard_match_logs_cleared_slot_witness :
    (checkCommandMatch ⟨some "two", some "two", some 0, some 3, [], []⟩).guiLog
      = [none] ∧
    (checkCommandMatch ⟨some "two", some "two", some 0, some 3, [], []⟩).matchedCommands
      = ["two"] := by
  have h := dashboard_match_logs_cleared_slot
    ⟨some "two", some "two", some 0, some 3, [], []⟩
    (by decide) (by decide) (by decide) (by decide) (by decide) (by decide)
  exact ⟨by simpa using h.1, by simpa using h.2.1⟩

end HRC
